import Mathlib

/-!
Verification of the real-time audio relay script `src/audio_stream.mjs`.

The script is a set of event callbacks around a WebSocket (`ws`), a microphone
capture stream (`mic` / sox `rec`) and a speaker.  We embed it as a pure event
handler: each JavaScript callback becomes a Lean function from the relay state
and the event payload to a new state plus a list of observable effects
(console logs, outbound channel sends, playback invocations, process exits).
Events are dispatched by `step`, and `run` folds `step` over an event trace.
-/

namespace AudioStream

/-- The base64 alphabet, in the standard order used by Node `Buffer`. -/
def base64Alphabet : List Char :=
  "ABCDEFGHIJKLMNOPQRSTUVWXYZabcdefghijklmnopqrstuvwxyz0123456789+/".data

/-- The alphabet character for a 6-bit value (values are reduced mod 64). -/
def b64Char (n : Nat) : Char := base64Alphabet.getD (n % 64) 'A'

/-- The 6-bit value of an alphabet character; `none` for every other character
(including the padding character). -/
def b64Value (c : Char) : Option Nat :=
  List.findIdx? (fun x => x == c) base64Alphabet

/-- Standard base64 encoding of a byte list (bytes reduced mod 256), with
padding, modelling Node `buffer.toString` with the base64 encoding as used on
the microphone data chunks. -/
def base64EncodeCore : List Nat → List Char
  | [] => []
  | [b0] =>
      let x0 := b0 % 256
      [b64Char (x0 / 4), b64Char (x0 % 4 * 16), '=', '=']
  | [b0, b1] =>
      let x0 := b0 % 256
      let x1 := b1 % 256
      [b64Char (x0 / 4), b64Char (x0 % 4 * 16 + x1 / 16), b64Char (x1 % 16 * 4), '=']
  | b0 :: b1 :: b2 :: rest =>
      let x0 := b0 % 256
      let x1 := b1 % 256
      let x2 := b2 % 256
      b64Char (x0 / 4) :: b64Char (x0 % 4 * 16 + x1 / 16) ::
        b64Char (x1 % 16 * 4 + x2 / 64) :: b64Char (x2 % 64) :: base64EncodeCore rest

/-- Base64 encoding of a byte list as a string. -/
def base64Encode (bs : List Nat) : String := String.mk (base64EncodeCore bs)

/-- Decode a list of 6-bit values into bytes, four sextets to three bytes;
a trailing partial quantum contributes its complete bytes only. -/
def base64DecodeSextets : List Nat → List Nat
  | s0 :: s1 :: s2 :: s3 :: rest =>
      (s0 * 4 + s1 / 16) :: ((s1 % 16) * 16 + s2 / 4) :: ((s2 % 4) * 64 + s3) ::
        base64DecodeSextets rest
  | [s0, s1, s2] => [s0 * 4 + s1 / 16, (s1 % 16) * 16 + s2 / 4]
  | [s0, s1] => [s0 * 4 + s1 / 16]
  | _ => []

/-- Model of Node `Buffer.from(s, base64)` as called by `playAudio`: a lenient
decoder that skips every non-alphabet character (padding included) and then
decodes the remaining sextet stream. -/
def nodeBase64Decode (s : String) : List Nat :=
  base64DecodeSextets (s.data.filterMap b64Value)

/-- One inbound JSON message content part, as read by the handler
(`response.part.type`, `response.part.transcript`). -/
structure Part where
  type : String
  transcript : String
deriving Repr, DecidableEq

/-- The function-call payload read by the handler
(`response.function.name`, `response.function.arguments`). -/
structure FnInfo where
  name : String
  argLocation : String
  argUnit : String
deriving Repr, DecidableEq

/-- One parsed inbound channel message, with exactly the fields the handler in
`src/audio_stream.mjs` reads.  Optional fields model absent JSON properties. -/
structure InMsg where
  type : String
  delta : Option String
  part : Option Part
  function : Option FnInfo
  id : Option String
deriving Repr, DecidableEq

/-- The mock weather lookup result produced by `getWeather` (the awaited
delay is timing only and has no observable value). -/
structure WeatherData where
  location : String
  temperature : Nat
  unit : String
  condition : String
deriving Repr, DecidableEq

/-- `getWeather(location, unit)` from the source: a mock implementation
returning 22 for celsius and 72 otherwise, condition Sunny. -/
def getWeather (location unit : String) : WeatherData :=
  { location := location
    temperature := if unit = "celsius" then 22 else 72
    unit := unit
    condition := "Sunny" }

/-- Outbound channel messages produced by `ws.send` calls in the source. -/
inductive OutMsg where
  | inputAudioBufferAppend (audio : String)
  | inputAudioBufferCommit
  | conversationItemCreate (content : String)
  | functionCallResult (id : Option String) (result : WeatherData)
deriving Repr, DecidableEq

/-- Observable effects of the handlers: console output, an outbound send, a
playback invocation carrying the decoded byte buffer piped to the speaker,
starting the microphone, or a process exit.  No runtime handler in the source
calls `process.exit`, so `procExit` is only ever produced by the startup
checks. -/
inductive Effect where
  | log (s : String)
  | send (m : OutMsg)
  | play (buffer : List Nat)
  | startMic
  | procExit (code : Nat)
deriving Repr, DecidableEq

/-- Connection phase of the relay, mirroring the WebSocket readyState that the
`ws` library maintains for the single `ws` object: events `open` and `close`
move it forward; after `close` the library delivers no further `message`
events. -/
inductive Phase where
  | connecting
  | streaming
  | closed
deriving Repr, DecidableEq

/-- The mutable state of the relay: the module-level `accumulatedAudio` array
of base64 fragment strings, plus the connection phase. -/
structure RelayState where
  accumulatedAudio : List String
  phase : Phase
deriving Repr, DecidableEq

/-- State at process start: `accumulatedAudio = []`, connection underway. -/
def initState : RelayState := { accumulatedAudio := [], phase := Phase.connecting }

/-- A mid-stream state with a given accumulator content. -/
def turnState (acc : List String) : RelayState :=
  { accumulatedAudio := acc, phase := Phase.streaming }

/-- `playAudio(audioData, callback)` from the source, as an effect list.
`playbackOk` models whether the Speaker construction and stream setup inside
the `try` block succeed; on failure the `catch` only logs.  On success the
decoded buffer is piped to the speaker (`play`) and then the function logs.
The `callback` argument is always the closure clearing `accumulatedAudio`; it
runs at the readable stream `end` event, modelled by `Event.playbackEnd`. -/
def playAudio (playbackOk : Bool) (audioData : String) : List Effect :=
  if playbackOk then
    [Effect.play (nodeBase64Decode audioData), Effect.log "Audio played from received stream."]
  else
    [Effect.log "Error playing audio:"]

/-- Outcome of one run of the (async) message callback: normal completion, or
a thrown TypeError escaping the handler (an unhandled rejection; the process
continues).  Both carry the state and the effects produced before the end. -/
inductive HandlerOutcome where
  | ok (st : RelayState) (effs : List Effect)
  | threw (st : RelayState) (effs : List Effect)
deriving Repr, DecidableEq

/-- The state after a handler run. -/
def outcomeState : HandlerOutcome → RelayState
  | HandlerOutcome.ok st _ => st
  | HandlerOutcome.threw st _ => st

/-- The effects of a handler run. -/
def outcomeEffects : HandlerOutcome → List Effect
  | HandlerOutcome.ok _ effs => effs
  | HandlerOutcome.threw _ effs => effs

/-- The `ws.on(message)` callback from the source, branch by branch:
audio deltas are pushed onto `accumulatedAudio`; `response.audio.done` and
`response.content_part.done` join the accumulator and call `playAudio` with
the clearing callback; `response.content_part.added` with an audio part
pushes the part transcript; a `function_call` for `get_current_weather`
awaits `getWeather` and sends the result back (reading `response.function.name`
throws when `function` is absent, because only the type test short-circuits);
everything else is logged.  A JS `push(undefined)` (absent `delta` or
`transcript`) is represented by the empty string, which is exactly its
contribution to the later `join`. -/
def wsOnMessage (playbackOk : Bool) (st : RelayState) (m : InMsg) : HandlerOutcome :=
  if m.type = "response.audio.delta" then
    HandlerOutcome.ok
      { st with accumulatedAudio := st.accumulatedAudio ++ [m.delta.getD ""] }
      [Effect.log "Received audio delta, accumulating audio..."]
  else if m.type = "response.audio.done" then
    HandlerOutcome.ok st
      (Effect.log "Received complete audio response, preparing to play..." ::
        playAudio playbackOk (String.join st.accumulatedAudio))
  else if m.type = "response.content_part.added" ∧ m.part.map Part.type = some "audio" then
    HandlerOutcome.ok
      { st with accumulatedAudio :=
          st.accumulatedAudio ++ [(m.part.map Part.transcript).getD ""] }
      [Effect.log "Received audio content part, accumulating audio..."]
  else if m.type = "response.content_part.done" then
    HandlerOutcome.ok st
      (Effect.log "Received complete content part, preparing to play..." ::
        playAudio playbackOk (String.join st.accumulatedAudio))
  else if m.type = "function_call" then
    match m.function with
    | none => HandlerOutcome.threw st []
    | some f =>
        if f.name = "get_current_weather" then
          HandlerOutcome.ok st
            [Effect.log "Received function call for get_current_weather",
             Effect.log ("Getting weather for " ++ f.argLocation ++ " in " ++ f.argUnit),
             Effect.log "Weather data:",
             Effect.send (OutMsg.functionCallResult m.id (getWeather f.argLocation f.argUnit))]
        else HandlerOutcome.ok st [Effect.log "Received message:"]
  else
    HandlerOutcome.ok st [Effect.log "Received message:"]

/-- The constant content of the initialization message the source sends on
channel open (`conversation.item.create`, system role, with the weather tool
declaration elided to its instruction text). -/
def initItemContent : String :=
  "Please assist the user with getting their local weather forecast."

/-- Effects of `startAudioStream(ws)`: the mic instance is configured, its
`error`, `data` and `silence` callbacks are registered (modelled by the
`micOn...` handlers below), `micInstance.start()` runs and a log follows. -/
def startAudioStream : List Effect :=
  [Effect.startMic, Effect.log "Microphone started streaming."]

/-- The `ws.on(open)` callback: log, send the initialization message, then
start the audio stream.  The phase moves to streaming (the readyState kept by
the library). -/
def wsOnOpen (st : RelayState) : RelayState × List Effect :=
  ({ st with phase := Phase.streaming },
   Effect.log "Connected to OpenAI Realtime API." ::
     Effect.send (OutMsg.conversationItemCreate initItemContent) :: startAudioStream)

/-- The `ws.on(close)` callback: it only logs.  The phase moves to closed
(the readyState kept by the library); `accumulatedAudio` is not touched. -/
def wsOnClose (st : RelayState) : RelayState × List Effect :=
  ({ st with phase := Phase.closed }, [Effect.log "WebSocket connection closed."])

/-- The `ws.on(error)` callback: it only logs. -/
def wsOnError (st : RelayState) : RelayState × List Effect :=
  (st, [Effect.log "WebSocket error:"])

/-- The mic stream `data` callback: a chunk is sent as one
`input_audio_buffer.append` message with its base64 encoding, guarded by
`data.length > 0`; an empty chunk produces nothing. -/
def micOnData (st : RelayState) (data : List Nat) : RelayState × List Effect :=
  if data.length > 0 then
    (st, [Effect.log "Sending audio data chunk to server...",
          Effect.send (OutMsg.inputAudioBufferAppend (base64Encode data))])
  else (st, [])

/-- The mic stream `silence` callback: log and send one
`input_audio_buffer.commit` message. -/
def micOnSilence (st : RelayState) : RelayState × List Effect :=
  (st, [Effect.log "Committing audio buffer after silence...",
        Effect.send OutMsg.inputAudioBufferCommit])

/-- The mic stream `error` callback: it only logs (`console.error`); there is
no `process.exit` and no retry in this handler. -/
def micOnError (st : RelayState) : RelayState × List Effect :=
  (st, [Effect.log "Microphone error:"])

/-- The discrete events delivered to the relay by the event loop. -/
inductive Event where
  | wsOpen
  | wsMessage (m : InMsg)
  | wsClose
  | wsError
  | micData (data : List Nat)
  | micSilence
  | micError
  | playbackEnd
deriving Repr

/-- Dispatch one event to its handler.  Inbound channel messages are delivered
only while the connection is not closed (the `ws` library emits no `message`
event after `close`); the microphone callbacks are independent of the channel.
`playbackEnd` is the readable stream `end` event of a previously started
`playAudio`, whose callback unconditionally resets `accumulatedAudio`. -/
def step (playbackOk : Bool) (st : RelayState) : Event → RelayState × List Effect
  | Event.wsOpen => wsOnOpen st
  | Event.wsMessage m =>
      if st.phase = Phase.closed then (st, [])
      else (outcomeState (wsOnMessage playbackOk st m), outcomeEffects (wsOnMessage playbackOk st m))
  | Event.wsClose => wsOnClose st
  | Event.wsError => wsOnError st
  | Event.micData data => micOnData st data
  | Event.micSilence => micOnSilence st
  | Event.micError => micOnError st
  | Event.playbackEnd => ({ st with accumulatedAudio := [] }, [])

/-- Run a trace of events from a state, collecting all effects in order. -/
def run (playbackOk : Bool) (st : RelayState) : List Event → RelayState × List Effect
  | [] => (st, [])
  | e :: rest =>
      ((run playbackOk (step playbackOk st e).1 rest).1,
       (step playbackOk st e).2 ++ (run playbackOk (step playbackOk st e).1 rest).2)

/-- Outcome of the two startup checks that run before the WebSocket object is
created: `process.exit(1)` when the credential is absent or empty
(`if (!API_KEY)`), `process.exit(1)` when `which rec` fails, otherwise the
connection is attempted. -/
inductive StartupOutcome where
  | procExit (code : Nat)
  | connect
deriving Repr, DecidableEq

/-- The startup sequence of the script: credential check, then capture
utility check, then the WebSocket connection. -/
def startup (apiKey : Option String) (recAvailable : Bool) : StartupOutcome :=
  if apiKey.getD "" = "" then StartupOutcome.procExit 1
  else if recAvailable then StartupOutcome.connect
  else StartupOutcome.procExit 1

/-- The outbound messages among a list of effects, in order. -/
def sendsOf (effs : List Effect) : List OutMsg :=
  effs.filterMap fun e =>
    match e with
    | Effect.send m => some m
    | _ => none

/-- The playback buffers among a list of effects, in order. -/
def playsOf (effs : List Effect) : List (List Nat) :=
  effs.filterMap fun e =>
    match e with
    | Effect.play b => some b
    | _ => none

/-- Whether a list of effects contains a process exit. -/
def hasProcExit (effs : List Effect) : Bool :=
  effs.any fun e =>
    match e with
    | Effect.procExit _ => true
    | _ => false

/-- An inbound audio delta message carrying fragment `d`. -/
def deltaMsg (d : String) : InMsg :=
  { type := "response.audio.delta", delta := some d, part := none, function := none, id := none }

/-- The inbound audio done message. -/
def doneMsg : InMsg :=
  { type := "response.audio.done", delta := none, part := none, function := none, id := none }

/-- An inbound content-part-added message with optional delta field and part. -/
def mkContentPartAdded (d : Option String) (p : Option Part) : InMsg :=
  { type := "response.content_part.added", delta := d, part := p, function := none, id := none }

end AudioStream

namespace AudioStream

/-! Helper lemmas about traces and effect projections. -/

theorem run_append (pOk : Bool) (st : RelayState) (es1 es2 : List Event) :
    run pOk st (es1 ++ es2) =
      ((run pOk (run pOk st es1).1 es2).1,
       (run pOk st es1).2 ++ (run pOk (run pOk st es1).1 es2).2) := by
  induction es1 generalizing st with
  | nil => simp [run]
  | cons e rest ih => simp [run, ih, List.append_assoc]

theorem run_deltas (pOk : Bool) (ds : List String) :
    ∀ st : RelayState, st.phase ≠ Phase.closed →
      run pOk st (ds.map fun d => Event.wsMessage (deltaMsg d)) =
        ({ st with accumulatedAudio := st.accumulatedAudio ++ ds },
         ds.map fun _ => Effect.log "Received audio delta, accumulating audio...") := by
  induction ds with
  | nil => intro st _; simp [run]
  | cons d rest ih =>
      intro st h
      have hstep : step pOk st (Event.wsMessage (deltaMsg d)) =
          ({ st with accumulatedAudio := st.accumulatedAudio ++ [d] },
           [Effect.log "Received audio delta, accumulating audio..."]) := by
        simp [step, h, wsOnMessage, deltaMsg, outcomeState, outcomeEffects]
      have h2 : ({ st with accumulatedAudio := st.accumulatedAudio ++ [d] } : RelayState).phase
          ≠ Phase.closed := h
      simp [run, hstep, ih _ h2, List.append_assoc]

theorem playsOf_append (l1 l2 : List Effect) :
    playsOf (l1 ++ l2) = playsOf l1 ++ playsOf l2 := by
  simp [playsOf, List.filterMap_append]

theorem playsOf_log_map (ds : List String) (c : String) :
    playsOf (ds.map fun _ => Effect.log c) = [] := by
  induction ds with
  | nil => rfl
  | cons d rest ih => simp [playsOf, List.filterMap_cons] at ih ⊢

theorem wsOnMessage_no_procExit (pOk : Bool) (st : RelayState) (m : InMsg) :
    hasProcExit (outcomeEffects (wsOnMessage pOk st m)) = false := by
  unfold wsOnMessage
  split_ifs
  · rfl
  · cases pOk <;> rfl
  · rfl
  · cases pOk <;> rfl
  · cases hf : m.function with
    | none => rfl
    | some f =>
        by_cases hn : f.name = "get_current_weather" <;>
          simp [hn, outcomeEffects, hasProcExit]
  · rfl

end AudioStream

namespace AudioStream

/-! Claim theorems. -/

/-- The events of one inbound response turn: the delta messages in arrival
order, the done message, and the playback completion. -/
def deltaTurnEvents (ds : List String) : List Event :=
  (ds.map fun d => Event.wsMessage (deltaMsg d)) ++
    [Event.wsMessage doneMsg, Event.playbackEnd]

/-- C1: for every sequence of inbound audio-delta messages followed by a done
message, starting a fresh turn, the playback sink receives exactly one buffer,
the base64 decoding of the delta strings concatenated as raw text in arrival
order, and the accumulator is empty immediately after the playback completion
callback fires. -/
theorem delta_turn_plays_ordered_concatenation (ds : List String) :
    playsOf (run true (turnState []) (deltaTurnEvents ds)).2 =
        [nodeBase64Decode (String.join ds)] ∧
    (run true (turnState []) (deltaTurnEvents ds)).1.accumulatedAudio = [] := by
  have hphase : (turnState []).phase ≠ Phase.closed := by decide
  have hd := run_deltas true ds (turnState []) hphase
  rw [deltaTurnEvents, run_append, hd]
  constructor
  · rw [playsOf_append, playsOf_log_map]
    simp [run, step, turnState, wsOnMessage, doneMsg, playAudio, playsOf,
      outcomeState, outcomeEffects]
  · simp [run, step, turnState, wsOnMessage, doneMsg, playAudio,
      outcomeState, outcomeEffects]

/-- C2 counterexample: an inbound well-formed weather `function_call` message
has none of the four handled audio types, yet the handler does not merely log
it: it sends a `function_call.result` message over the channel. -/
def fnCallMsg : InMsg :=
  { type := "function_call", delta := none, part := none,
    function := some { name := "get_current_weather",
                       argLocation := "Paris", argUnit := "celsius" },
    id := some "call-1" }

/-- C2 counterexample: the function-call message is not among the handled
audio types, and handling it sends a result message over the channel, so the
handler does more than log. -/
theorem function_call_branch_sends_result :
    fnCallMsg.type ∉ ["response.audio.delta", "response.audio.done",
      "response.content_part.added", "response.content_part.done"] ∧
    sendsOf (outcomeEffects (wsOnMessage true (turnState []) fnCallMsg)) =
      [OutMsg.functionCallResult (some "call-1")
        { location := "Paris", temperature := 22, unit := "celsius",
          condition := "Sunny" }] := by
  exact ⟨by decide, rfl⟩

/-- C2 (amended): every inbound message whose type is none of the five branch
types recognized by the handler is only logged: the state is unchanged and no
send or playback happens. -/
theorem unrecognized_message_only_logged (pOk : Bool) (st : RelayState) (m : InMsg)
    (h : m.type ∉ ["response.audio.delta", "response.audio.done",
      "response.content_part.added", "response.content_part.done", "function_call"]) :
    wsOnMessage pOk st m = HandlerOutcome.ok st [Effect.log "Received message:"] := by
  simp only [List.mem_cons, List.not_mem_nil, or_false, not_or] at h
  obtain ⟨h1, h2, h3, h4, h5⟩ := h
  simp [wsOnMessage, h1, h2, h3, h4, h5]

/-- A concrete unrecognized inbound message. -/
def sessionCreatedMsg : InMsg :=
  { type := "session.created", delta := none, part := none, function := none, id := none }

/-- Witness for the amended C2 theorem at a concrete unrecognized message. -/
theorem unrecognized_message_only_logged_witness :
    sessionCreatedMsg.type ∉ ["response.audio.delta", "response.audio.done",
      "response.content_part.added", "response.content_part.done", "function_call"] ∧
    wsOnMessage true initState sessionCreatedMsg =
      HandlerOutcome.ok initState [Effect.log "Received message:"] :=
  ⟨by decide, unrecognized_message_only_logged true initState sessionCreatedMsg (by decide)⟩

/-- C3 counterexample: closing the channel while the accumulator holds a
fragment leaves the fragment in place; the close handler does not reset the
accumulator to empty. -/
theorem close_does_not_clear_accumulator :
    (turnState ["QQ=="]).accumulatedAudio ≠ [] ∧
    (step true (turnState ["QQ=="]) Event.wsClose).1.accumulatedAudio = ["QQ=="] :=
  ⟨by decide, rfl⟩

/-- C3 (amended): on a channel close event the accumulator is left unchanged
rather than reset, no playback is attempted, and the relay reaches the
terminal closed phase, in which inbound channel messages are no longer
processed. -/
theorem close_terminal_preserves_accumulator (pOk : Bool) (st : RelayState) (m : InMsg) :
    step pOk st Event.wsClose =
      ({ st with phase := Phase.closed }, [Effect.log "WebSocket connection closed."]) ∧
    playsOf (step pOk st Event.wsClose).2 = [] ∧
    step pOk { st with phase := Phase.closed } (Event.wsMessage m) =
      ({ st with phase := Phase.closed }, []) :=
  ⟨rfl, rfl, rfl⟩

/-- C4 counterexample: a runtime microphone error is only logged: the state is
unchanged and no process exit is produced, so the failure is not fatal. -/
theorem mic_error_is_nonfatal :
    step true initState Event.micError = (initState, [Effect.log "Microphone error:"]) ∧
    hasProcExit (step true initState Event.micError).2 = false :=
  ⟨rfl, rfl⟩

/-- C4 (amended): only the startup check for the capture utility is fatal,
with exit status 1 and no retry; a runtime microphone stream error is logged
and ignored, exactly as a playback device error is. -/
theorem capture_fatal_only_at_startup (st : RelayState) (s : String) :
    startup (some "sk-test") false = StartupOutcome.procExit 1 ∧
    step true st Event.micError = (st, [Effect.log "Microphone error:"]) ∧
    hasProcExit (step true st Event.micError).2 = false ∧
    playAudio false s = [Effect.log "Error playing audio:"] ∧
    hasProcExit (playAudio false s) = false :=
  ⟨rfl, rfl, rfl, rfl, rfl⟩

/-- C5: a zero-length capture chunk produces no outbound message at all; a
positive-length chunk produces exactly one append message carrying the
chunk's base64 encoding; the state is unchanged either way. -/
theorem mic_chunk_append_guard (pOk : Bool) (st : RelayState) (data : List Nat) :
    sendsOf (step pOk st (Event.micData data)).2 =
      (if data.length > 0 then [OutMsg.inputAudioBufferAppend (base64Encode data)]
       else []) ∧
    (step pOk st (Event.micData data)).1 = st := by
  constructor
  · by_cases h : data.length > 0 <;> simp [step, micOnData, h, sendsOf]
  · by_cases h : data.length > 0 <;> simp [step, micOnData, h]

/-- C6: a silence event sends exactly one commit message and leaves the state,
in particular the accumulator, unchanged. -/
theorem silence_single_commit (pOk : Bool) (st : RelayState) :
    sendsOf (step pOk st Event.micSilence).2 = [OutMsg.inputAudioBufferCommit] ∧
    (step pOk st Event.micSilence).1 = st :=
  ⟨rfl, rfl⟩

/-- C7: startup exits with code 1 when the credential is absent or when the
capture utility is missing (both checks precede the channel connection by
construction of the startup sequence); with both present the connection
proceeds, and no runtime handler ever exits the process. -/
theorem startup_exit_codes :
    startup none true = StartupOutcome.procExit 1 ∧
    startup none false = StartupOutcome.procExit 1 ∧
    startup (some "sk-test") false = StartupOutcome.procExit 1 ∧
    startup (some "sk-test") true = StartupOutcome.connect ∧
    ∀ (pOk : Bool) (st : RelayState) (e : Event),
      hasProcExit (step pOk st e).2 = false := by
  refine ⟨rfl, rfl, rfl, rfl, fun pOk st e => ?_⟩
  cases e with
  | wsOpen => rfl
  | wsMessage m =>
      by_cases hc : st.phase = Phase.closed
      · simp [step, hc, hasProcExit]
      · simp only [step, if_neg hc]
        exact wsOnMessage_no_procExit pOk st m
  | wsClose => rfl
  | wsError => rfl
  | micData data =>
      by_cases h : data.length > 0 <;> simp [step, micOnData, h, hasProcExit]
  | micSilence => rfl
  | micError => rfl
  | playbackEnd => rfl

/-- Effects that are channel sends or the microphone start. -/
def isSendOrStartMic (e : Effect) : Bool :=
  match e with
  | Effect.send _ => true
  | Effect.startMic => true
  | _ => false

/-- C8: on the channel open event the phase moves from connecting to
streaming, and among the handler effects there is exactly one channel send,
the initialization message, and exactly one microphone start, in that order. -/
theorem open_sends_init_then_starts_capture (pOk : Bool) (st : RelayState) :
    (step pOk st Event.wsOpen).1 = { st with phase := Phase.streaming } ∧
    (step pOk st Event.wsOpen).2.filter isSendOrStartMic =
      [Effect.send (OutMsg.conversationItemCreate initItemContent), Effect.startMic] :=
  ⟨rfl, rfl⟩

/-- C9: a content-part-added message is accumulated only when its part type is
audio, and the value appended is the part transcript (never the delta field);
with any other part type, or with no part at all, the message is only logged
and the state is unchanged. -/
theorem content_part_added_audio_only (pOk : Bool) (st : RelayState)
    (d : Option String) (p : Part) :
    wsOnMessage pOk st (mkContentPartAdded d (some p)) =
      (if p.type = "audio" then
        HandlerOutcome.ok
          { st with accumulatedAudio := st.accumulatedAudio ++ [p.transcript] }
          [Effect.log "Received audio content part, accumulating audio..."]
      else HandlerOutcome.ok st [Effect.log "Received message:"]) ∧
    wsOnMessage pOk st (mkContentPartAdded d none) =
      HandlerOutcome.ok st [Effect.log "Received message:"] := by
  constructor
  · by_cases h : p.type = "audio" <;> simp [wsOnMessage, mkContentPartAdded, h]
  · rfl

/-- C10: handling a done message does not itself clear the accumulator; the
accumulator is reset only by the playback completion callback, and that reset
is unconditional, so a delta fragment arriving between the done message and
the completion callback is first appended and then discarded: the only
playback of the trace carries the pre-done accumulator contents, never the
late fragment. -/
theorem done_defers_clear_to_playback_completion (B : List String) (d : String) :
    outcomeState (wsOnMessage true (turnState B) doneMsg) = turnState B ∧
    (run true (turnState B)
        [Event.wsMessage doneMsg, Event.wsMessage (deltaMsg d)]).1.accumulatedAudio =
      B ++ [d] ∧
    (run true (turnState B)
        [Event.wsMessage doneMsg, Event.wsMessage (deltaMsg d),
         Event.playbackEnd]).1.accumulatedAudio = [] ∧
    playsOf (run true (turnState B)
        [Event.wsMessage doneMsg, Event.wsMessage (deltaMsg d),
         Event.playbackEnd]).2 = [nodeBase64Decode (String.join B)] ∧
    ∀ st : RelayState, (step true st Event.playbackEnd).1.accumulatedAudio = [] :=
  ⟨rfl, rfl, rfl, rfl, fun _ => rfl⟩

end AudioStream
